import Mathlib

set_option linter.unusedVariables false

/- Shallow embedding of the next-axis HTTP client core: the interceptor
   registries (utils), the config merger, the request pipeline `core`, and the
   client facade setters.  Machine-external collaborators (the fetch transport,
   JSON encoding/decoding, URL resolution) are modelled as explicit inputs. -/

/-- JSON-like JavaScript value, used for request/response payloads. -/
inductive JVal where
  | null
  | bool (b : Bool)
  | num (n : Int)
  | str (s : String)
  | arr (xs : List JVal)
  | obj (fields : List (String × JVal))

/-- A request body (`cfg.data`): either a JSON-like value or one of the four
    binary/streamable/form classes the auto-JSON test excludes
    (FormData, Blob, ArrayBuffer, URLSearchParams). -/
inductive BodyVal where
  | jval (j : JVal)
  | formData
  | blob
  | arrayBuffer
  | urlSearchParams

/-- `typeof body === "object" && body != null` for a JSON-like value:
    objects and arrays are "object", primitives are not. -/
def isPlainJVal : JVal → Bool
  | .obj _ => true
  | .arr _ => true
  | _ => false

/-- The source's `isPlainObj` test on `cfg.data`: non-null, not one of the four
    binary/form classes, and of object type. -/
def isPlainObjData : Option BodyVal → Bool
  | some (.jval j) => isPlainJVal j
  | _ => false

/-- One of the four classes excluded from auto-JSON encoding. -/
def isBinaryBody : BodyVal → Bool
  | .formData => true
  | .blob => true
  | .arrayBuffer => true
  | .urlSearchParams => true
  | .jval _ => false

/-- Does the character list start with the given pattern? -/
def listStartsWith : List Char → List Char → Bool
  | _, [] => true
  | [], _ :: _ => false
  | c :: cs, p :: ps => c == p && listStartsWith cs ps

/-- Does the character list contain the pattern as a contiguous sublist? -/
def listContainsSub : List Char → List Char → Bool
  | [], pat => pat.isEmpty
  | c :: cs, pat => listStartsWith (c :: cs) pat || listContainsSub cs pat

/-- `String.prototype.includes`. -/
def strIncludes (s pat : String) : Bool := listContainsSub s.data pat.data

/-- Header-name normalization: the platform Headers class stores names
    lowercased and normalizes every queried name the same way, which is how it
    is case-insensitive.  Lists representing Headers contents therefore hold
    lowercased names, and lookups compare the stored name against the
    normalized query. -/
def hKey (k : String) : String := ⟨k.data.map Char.toLower⟩

/-- `Headers.has`, case-insensitive. -/
def hhas (l : List (String × String)) (k : String) : Bool :=
  l.any (fun p => p.fst == hKey k)

/-- `Headers.get`, case-insensitive; `none` plays the role of JS `null`. -/
def hget (l : List (String × String)) (k : String) : Option String :=
  (l.find? (fun p => p.fst == hKey k)).map (fun p => p.snd)

/-- `Headers.set`: replace the value of an existing (case-insensitive) name in
    place, else append the lowercased name with the value. -/
def hset (l : List (String × String)) (k v : String) : List (String × String) :=
  if l.any (fun p => p.fst == hKey k) then
    l.map (fun p => if p.fst == hKey k then (p.fst, v) else p)
  else l ++ [(hKey k, v)]

/-- `Headers.delete`, case-insensitive. -/
def hdel (l : List (String × String)) (k : String) : List (String × String) :=
  l.filter (fun p => !(p.fst == hKey k))

/-- A `HeadersInit` value as held in a config: either a plain record object or
    an actual Headers instance (whose normalized contents are the list).  The
    distinction matters because `toHeaders` returns a Headers instance
    unchanged — an alias to the same mutable object. -/
inductive HeadersInit where
  | plain (l : List (String × String))
  | headersObj (l : List (String × String))
deriving DecidableEq

/-- Contents of `toHeaders h`: a Headers instance is used as-is; a plain record
    (or absent value) is normalized into a fresh Headers via repeated `set`. -/
def toHeaders : Option HeadersInit → List (String × String)
  | some (.headersObj l) => l
  | some (.plain l) => l.foldl (fun acc p => hset acc p.fst p.snd) []
  | none => []

/-- Is the value an actual Headers instance (so `toHeaders` aliases it)? -/
def isHeadersInstance : Option HeadersInit → Bool
  | some (.headersObj _) => true
  | _ => false

/-- ASCII lowercasing of a whole string (used for the case-insensitive
    absolute-URL test). -/
def strLower (u : String) : String := ⟨u.data.map Char.toLower⟩

/-- ASCII uppercasing of a whole string (`String.prototype.toUpperCase` on the
    method names in play). -/
def strUpper (u : String) : String := ⟨u.data.map Char.toUpper⟩

/-- The `/^https?:\/\//i` absolute-URL test. -/
def isAbs (u : String) : Bool :=
  (strLower u).startsWith "http://" || (strLower u).startsWith "https://"

/-- Platform URL resolution primitive `new URL(rel, base).toString()`
    (an external collaborator per the spec).  `combine` only calls it with a
    base ending in "/" and a relative path with no leading "/", where WHATWG
    resolution of a dot-free path is concatenation. -/
def newURL (rel base : String) : String := base ++ rel

/-- `combine(base, rel)` from utils: keep an absolute rel verbatim, else join
    onto the "/"-terminated base after stripping leading slashes from rel. -/
def combine (base rel : String) : String :=
  if rel = "" then base
  else if isAbs rel then rel
  else
    let cleanBase := if base.endsWith "/" then base else base ++ "/"
    let cleanRel := rel.dropWhile (fun c => c == '/')
    newURL cleanRel cleanBase

/-- One registered interceptor pair `{ onFulfilled?, onRejected? }`.
    `α` is the chained value type, `ε` the error type, `ρ` the type of values
    an onRejected handler may recover with. -/
structure Handler (α ε ρ : Type) where
  onFulfilled : Option (α → Except ε α)
  onRejected : Option (ε → Except ε ρ)

/-- The `Interceptors` registry: a list of handler slots; an ejected slot is
    `none` (JS `null`). -/
structure Interceptors (α ε ρ : Type) where
  handlers : List (Option (Handler α ε ρ))

/-- `use(onFulfilled?, onRejected?)`: push a handler, return the new registry
    together with the issued id (the slot index). -/
def Interceptors.use (s : Interceptors α ε ρ)
    (f : Option (α → Except ε α)) (r : Option (ε → Except ε ρ)) :
    Interceptors α ε ρ × Nat :=
  (⟨s.handlers ++ [some ⟨f, r⟩]⟩, s.handlers.length)

/-- `eject(id)`: null out the slot, but only if it currently holds a handler
    (out-of-range or already-null slots are left untouched). -/
def Interceptors.eject (s : Interceptors α ε ρ) (id : Nat) : Interceptors α ε ρ :=
  match s.handlers[id]? with
  | some (some _) => ⟨s.handlers.set id none⟩
  | _ => s

/-- The loop body of `runFulfilled`: thread the value through every present
    onFulfilled callback in slot order; a callback failure aborts the chain. -/
def runFulfilledList : List (Option (Handler α ε ρ)) → α → Except ε α
  | [], v => .ok v
  | none :: rest, v => runFulfilledList rest v
  | some h :: rest, v =>
    match h.onFulfilled with
    | none => runFulfilledList rest v
    | some f =>
      match f v with
      | .ok v2 => runFulfilledList rest v2
      | .error e => .error e

/-- `runFulfilled(input)`. -/
def Interceptors.runFulfilled (s : Interceptors α ε ρ) (v : α) : Except ε α :=
  runFulfilledList s.handlers v

/-- The loop body of `runRejected`: the first present onRejected callback that
    returns ends the chain with its value; a callback that throws replaces the
    error for the remaining callbacks; if none returns, the final error is
    rethrown. -/
def runRejectedList : List (Option (Handler α ε ρ)) → ε → Except ε ρ
  | [], e => .error e
  | none :: rest, e => runRejectedList rest e
  | some h :: rest, e =>
    match h.onRejected with
    | none => runRejectedList rest e
    | some r =>
      match r e with
      | .ok v => .ok v
      | .error e2 => runRejectedList rest e2

/-- `runRejected(error)`. -/
def Interceptors.runRejected (s : Interceptors α ε ρ) (e : ε) : Except ε ρ :=
  runRejectedList s.handlers e

/-- True when no slot of the registry holds an onRejected callback. -/
def noRejectedHandlers (s : Interceptors α ε ρ) : Bool :=
  s.handlers.all (fun h =>
    match h with
    | some hh => hh.onRejected.isNone
    | none => true)

/-- The fully merged request configuration the pipeline builds and hands to the
    request interceptors (`final` in the source).  `url` is still optional
    here: the base join happens only after the request interceptors ran. -/
structure FinalConfig where
  url : Option String
  method : String
  baseURL : Option String
  headers : List (String × String)
  data : Option BodyVal
  timeout : Option Nat
  withCredentials : Option Bool
  credentials : Option String
  signal : Bool

/-- The normalized response (`HttpResponse` in types). -/
structure HttpResponse where
  data : JVal
  status : Nat
  headers : List (String × String)
  config : FinalConfig

/-- The structured error built by `makeError` (`HttpError` in types); the
    `isAxiosError` marker is encoded by the `ErrVal.http` wrapper below. -/
structure HttpError where
  message : String
  response : Option HttpResponse
  config : FinalConfig
  status : Option Nat

/-- Any value that can be thrown through the pipeline: a structured error
    (carrying the `isAxiosError` marker), an AbortError (name "AbortError",
    as produced by cancellation), or any other thrown value with an optional
    `message` property. -/
inductive ErrVal where
  | http (e : HttpError)
  | abort (msg : Option String)
  | other (msg : Option String)

/-- A value an onRejected handler recovers with: either response-shaped (it has
    both a `status` and a `data` field — the duck-type test in the source) or a
    plain value. -/
inductive RecVal where
  | shaped (status : Nat) (data : JVal)
  | plain (v : JVal)

/-- `makeError(msg, cfg, res?, status?)` from utils. -/
def makeError (msg : String) (cfg : FinalConfig) (res : Option HttpResponse)
    (status : Option Nat) : HttpError :=
  { message := msg, response := res, config := cfg, status := status }

/-- `e?.message` on a thrown value. -/
def errMessage : ErrVal → Option String
  | .http e => some e.message
  | .abort m => m
  | .other m => m

/-- JS `a ?? b` on optional fields. -/
def oor : Option α → Option α → Option α
  | some x, _ => some x
  | none, b => b

/-- JS truthiness of `final.timeout` (absent and 0 are falsy). -/
def timeoutTruthy : Option Nat → Bool
  | some t => t != 0
  | none => false

/-- Template interpolation of `final.timeout` (`undefined` when absent). -/
def fmtTimeout : Option Nat → String
  | some t => toString t
  | none => "undefined"

/-- The return step after `runRejected` recovers: a response-shaped value
    yields its `data` field, any other value is returned as-is; an unhandled
    error is rethrown. -/
def recoverResult : Except ErrVal RecVal → Except ErrVal JVal
  | .ok (.shaped _ d) => .ok d
  | .ok (.plain v) => .ok v
  | .error h => .error h

/-- The catch-block normalization: reuse a structured error verbatim
    (`isAxiosError`), classify an AbortError as a timeout (status 0, message
    "timeout of {timeout}ms exceeded"), and wrap anything else with its message
    (default "Network Error") and `e?.response` / `e?.response?.status`
    (both absent for non-structured errors in this model). -/
def normalizeCatch (e : ErrVal) (fin : FinalConfig) : ErrVal :=
  match e with
  | .http he => .http he
  | .abort _ =>
    .http (makeError ("timeout of " ++ fmtTimeout fin.timeout ++ "ms exceeded")
      fin none (some 0))
  | .other m => .http (makeError (m.getD "Network Error") fin none none)

/-- The process-wide defaults (`ClientDefaults`). -/
structure Defaults where
  method : Option String
  headers : Option HeadersInit
  baseURL : Option String
  credentials : Option String
  withCredentials : Option Bool
  timeout : Option Nat
  signal : Bool
deriving DecidableEq

/-- A per-call configuration as supplied by the caller.  `headers` is the raw
    entry list of whatever HeadersInit was passed (it is normalized through
    `toHeaders` before merging); `signal` records whether an external
    cancellation token was supplied. -/
structure CallConfig where
  url : Option String
  method : Option String
  baseURL : Option String
  headers : List (String × String)
  data : Option BodyVal
  timeout : Option Nat
  withCredentials : Option Bool
  credentials : Option String
  signal : Bool

/-- Header merge: start from `toHeaders(defaults.headers)` and `set` every
    per-call header into it (per-call values win, case-insensitively). -/
def mergeHeaders (dh : Option HeadersInit) (ch : List (String × String)) :
    List (String × String) :=
  ch.foldl (fun acc p => hset acc p.fst p.snd) (toHeaders dh)

/-- The auto-JSON body step: for a plain (structured, non-binary) body, set
    `Content-Type: application/json` if no Content-Type is present, and encode
    the body with the JSON encoder `strfy` when the (possibly just set)
    Content-Type includes "application/json"; all other bodies pass through. -/
def autoJson (strfy : JVal → String) (hs : List (String × String))
    (d : Option BodyVal) : List (String × String) × Option BodyVal :=
  let isPlain := isPlainObjData d
  let hs2 :=
    if isPlain && !(hhas hs "Content-Type") then
      hset hs "Content-Type" "application/json"
    else hs
  let d2 :=
    if isPlain then
      match hget hs2 "Content-Type" with
      | some ct =>
        if strIncludes ct "application/json" then
          match d with
          | some (.jval j) => some (.jval (.str (strfy j)))
          | _ => d
        else d
      | none => d
    else d
  (hs2, d2)

/-- The merged `final` configuration built before the request interceptors run:
    merged headers, auto-JSON body, credentials resolution (a truthy
    withCredentials — per-call else default — forces "include"), method
    resolution (per-call ?? default ?? "GET", uppercased), spread-inherited
    remaining fields. -/
def mergedFinal (strfy : JVal → String) (defaults : Defaults)
    (cfg : CallConfig) : FinalConfig :=
  let hb := autoJson strfy (mergeHeaders defaults.headers cfg.headers) cfg.data
  { url := cfg.url
    method := strUpper ((oor cfg.method defaults.method).getD "GET")
    baseURL := oor cfg.baseURL defaults.baseURL
    headers := hb.fst
    data := hb.snd
    timeout := oor cfg.timeout defaults.timeout
    withCredentials := oor cfg.withCredentials defaults.withCredentials
    credentials :=
      if oor cfg.withCredentials defaults.withCredentials = some true then
        some "include"
      else oor cfg.credentials defaults.credentials
    signal := cfg.signal || defaults.signal }

/-- The base-URL join performed after the request interceptors:
    `final.url = base && url ? combine(base, url) : url` with
    `base = final.baseURL ?? defaults.baseURL` and
    `url = final.url ?? cfg.url ?? ""`. -/
def resolveFin (defaults : Defaults) (cfg : CallConfig) (fin : FinalConfig) :
    FinalConfig :=
  let url0 := (oor fin.url cfg.url).getD ""
  let urlJ :=
    match oor fin.baseURL defaults.baseURL with
    | some b => if b ≠ "" ∧ url0 ≠ "" then combine b url0 else url0
    | none => url0
  { fin with url := some urlJ }

/-- Body decoding of a response: skipped entirely (decoded body null) for
    status 204/205; otherwise the JSON decoder is used when the content-type
    includes "application/json" and the text decoder otherwise, and a decoder
    failure degrades to null (JSON) or "" (text).  The second component records
    whether a decoder was invoked at all. -/
def decodeBody (status : Nat) (ct : String) (jsonR : Except Unit JVal)
    (textR : Except Unit String) : JVal × Bool :=
  if status = 204 ∨ status = 205 then (JVal.null, false)
  else if strIncludes ct "application/json" then
    (match jsonR with
     | .ok j => j
     | .error _ => JVal.null, true)
  else
    (match textR with
     | .ok s => JVal.str s
     | .error _ => JVal.str "", true)

/-- The normalized response (`wrapped` in the source) built from a transport
    response: decoded body, status, the response header record, and the
    resolved config. -/
def wrappedResp (fin : FinalConfig) (status : Nat)
    (rhdrs : List (String × String)) (jsonR : Except Unit JVal)
    (textR : Except Unit String) : HttpResponse :=
  { data := (decodeBody status ((hget rhdrs "content-type").getD "") jsonR textR).fst
    status := status
    headers := rhdrs
    config := fin }

/-- The outcome of the single transport (`fetch`) call: a response (status,
    header entries as iterated from the response Headers object, and the
    results the JSON/text body decoders would produce if invoked), an
    AbortError rejection (cancellation, internal timer or external token), or
    any other rejection with an optional message. -/
inductive FetchOutcome where
  | success (status : Nat) (rhdrs : List (String × String))
      (jsonR : Except Unit JVal) (textR : Except Unit String)
  | abortError
  | failure (msg : Option String)

/-- Observable result of one pipeline run.  Besides the caller-visible
    `result`, it records: the defaults as they stand after the call (the merge
    mutates them in place when `defaults.headers` is a Headers instance,
    because `toHeaders` aliases it); whether the internal timeout timer was
    armed and how many times it was cleared; whether a body decoder was
    invoked; the error offered to the response failure chain (and how many
    times that chain was run); and the normalized response if one was built. -/
structure CoreOut where
  result : Except ErrVal JVal
  defaultsAfter : Defaults
  timerArmed : Bool
  timerCleared : Nat
  decodeInvoked : Bool
  offeredErr : Option ErrVal
  rejectedRuns : Nat
  normResp : Option HttpResponse

/-- Defaults after the merge step: when `defaults.headers` is a Headers
    instance, `toHeaders` returned that same object and every per-call `set`
    (including the auto-JSON Content-Type) mutated it. -/
def mergedDefaultsAfter (strfy : JVal → String) (defaults : Defaults)
    (cfg : CallConfig) : Defaults :=
  if isHeadersInstance defaults.headers then
    { defaults with headers := some (.headersObj (mergedFinal strfy defaults cfg).headers) }
  else defaults

/-- The pipeline from the timer-arming point on (the `try`/`catch`/`finally`
    around the fetch), given the post-interceptor config `fin`. -/
def afterHooks (res : Interceptors HttpResponse ErrVal RecVal)
    (defaults : Defaults) (cfg : CallConfig) (dAfter : Defaults)
    (fin : FinalConfig) (outcome : FetchOutcome) : CoreOut :=
  let fin2 := resolveFin defaults cfg fin
  let armed := !fin2.signal && timeoutTruthy fin2.timeout
  let cleared := if armed then 1 else 0
  match outcome with
  | .success status rhdrs jsonR textR =>
    let pb := decodeBody status ((hget rhdrs "content-type").getD "") jsonR textR
    let wrapped := wrappedResp fin2 status rhdrs jsonR textR
    if status < 200 ∨ 300 ≤ status then
      let httpErr := makeError ("Request failed with status code " ++ toString status)
        fin2 (some wrapped) (some status)
      { result := recoverResult (res.runRejected (.http httpErr))
        defaultsAfter := dAfter
        timerArmed := armed
        timerCleared := cleared
        decodeInvoked := pb.snd
        offeredErr := some (.http httpErr)
        rejectedRuns := 1
        normResp := some wrapped }
    else
      match res.runFulfilled wrapped with
      | .ok processed =>
        { result := .ok processed.data
          defaultsAfter := dAfter
          timerArmed := armed
          timerCleared := cleared
          decodeInvoked := pb.snd
          offeredErr := none
          rejectedRuns := 0
          normResp := some wrapped }
      | .error e =>
        let normalized := normalizeCatch e fin2
        { result := recoverResult (res.runRejected normalized)
          defaultsAfter := dAfter
          timerArmed := armed
          timerCleared := cleared
          decodeInvoked := pb.snd
          offeredErr := some normalized
          rejectedRuns := 1
          normResp := some wrapped }
  | .abortError =>
    let normalized := normalizeCatch (.abort none) fin2
    { result := recoverResult (res.runRejected normalized)
      defaultsAfter := dAfter
      timerArmed := armed
      timerCleared := cleared
      decodeInvoked := false
      offeredErr := some normalized
      rejectedRuns := 1
      normResp := none }
  | .failure msg =>
    let normalized := normalizeCatch (.other msg) fin2
    { result := recoverResult (res.runRejected normalized)
      defaultsAfter := dAfter
      timerArmed := armed
      timerCleared := cleared
      decodeInvoked := false
      offeredErr := some normalized
      rejectedRuns := 1
      normResp := none }

/-- The request pipeline `core(cfg)`: merge, run request interceptors (a
    failure there is wrapped with message `e?.message ?? "Request interceptor
    error"` and routed through the response failure chain before any timer is
    armed), then base join, timer arming, dispatch, response normalization,
    response success chain, and the catch/finally handling. -/
def core (strfy : JVal → String) (defaults : Defaults)
    (req : Interceptors FinalConfig ErrVal RecVal)
    (res : Interceptors HttpResponse ErrVal RecVal)
    (cfg : CallConfig) (outcome : FetchOutcome) : CoreOut :=
  let final0 := mergedFinal strfy defaults cfg
  let dAfter := mergedDefaultsAfter strfy defaults cfg
  match req.runFulfilled final0 with
  | .error e =>
    let err := makeError ((errMessage e).getD "Request interceptor error")
      final0 none none
    { result := recoverResult (res.runRejected (.http err))
      defaultsAfter := dAfter
      timerArmed := false
      timerCleared := 0
      decodeInvoked := false
      offeredErr := some (.http err)
      rejectedRuns := 1
      normResp := none }
  | .ok fin => afterHooks res defaults cfg dAfter fin outcome

/-- The defaults object `createHttp()` starts from:
    `{ method: "GET", headers: {} }`. -/
def initialDefaults : Defaults :=
  { method := some "GET", headers := some (.plain []), baseURL := none
    credentials := none, withCredentials := none, timeout := none
    signal := false }

/-- Facade `setHeader(k, v)`: normalize the default headers through
    `toHeaders`, `set` the entry, and store the resulting Headers instance
    back into the defaults. -/
def setHeader (d : Defaults) (k v : String) : Defaults :=
  { d with headers := some (.headersObj (hset (toHeaders d.headers) k v)) }

/-- Facade `removeHeader(k)`. -/
def removeHeader (d : Defaults) (k : String) : Defaults :=
  { d with headers := some (.headersObj (hdel (toHeaders d.headers) k)) }

/-- Facade `setBaseURL(u)`. -/
def setBaseURL (d : Defaults) (u : String) : Defaults :=
  { d with baseURL := some u }

/- Shared lemmas (used by several claim proofs). -/

theorem runRejectedList_no_handlers {α ε ρ : Type}
    (hs : List (Option (Handler α ε ρ)))
    (h : hs.all (fun o =>
      match o with
      | some hh => hh.onRejected.isNone
      | none => true) = true)
    (e : ε) : runRejectedList hs e = .error e := by
  induction hs generalizing e with
  | nil => rfl
  | cons head rest ih =>
    cases head with
    | none =>
      simp only [List.all_cons, Bool.and_eq_true] at h
      simpa [runRejectedList] using ih h.2 e
    | some hh =>
      simp only [List.all_cons, Bool.and_eq_true] at h
      cases hr : hh.onRejected with
      | none => simp only [runRejectedList, hr]; exact ih h.2 e
      | some f => rw [hr] at h; simp [Option.isNone] at h

theorem noRej_runRejected {α ε ρ : Type} (s : Interceptors α ε ρ)
    (h : noRejectedHandlers s = true) (e : ε) :
    s.runRejected e = .error e :=
  runRejectedList_no_handlers s.handlers h e

theorem find?_append_none {α : Type} (l1 l2 : List α) (p : α → Bool)
    (h : l1.find? p = none) : (l1 ++ l2).find? p = l2.find? p := by
  induction l1 with
  | nil => rfl
  | cons a rest ih =>
    by_cases hp : p a
    · simp [List.find?_cons, hp] at h
    · simp only [List.find?_cons, hp] at h ⊢
      simp only [List.cons_append, List.find?_cons, hp]
      exact ih h

theorem hget_hset_of_not_has (l : List (String × String)) (k v : String)
    (h : hhas l k = false) : hget (hset l k v) k = some v := by
  unfold hhas at h
  unfold hset hget
  rw [h]
  simp only [if_false, Bool.false_eq_true]
  have hfind : l.find? (fun p => p.fst == hKey k) = none := by
    rw [List.find?_eq_none]
    intro x hx
    have h2 := List.any_eq_false.mp h x hx
    simpa using h2
  rw [find?_append_none _ _ _ hfind]
  simp [List.find?]

theorem core_ok (strfy : JVal → String) (defaults : Defaults)
    (req : Interceptors FinalConfig ErrVal RecVal)
    (res : Interceptors HttpResponse ErrVal RecVal)
    (cfg : CallConfig) (outcome : FetchOutcome) (fin : FinalConfig)
    (hreq : req.runFulfilled (mergedFinal strfy defaults cfg) = .ok fin) :
    core strfy defaults req res cfg outcome =
      afterHooks res defaults cfg (mergedDefaultsAfter strfy defaults cfg) fin outcome := by
  simp only [core]
  rw [hreq]

theorem core_offered_spec (strfy : JVal → String) (defaults : Defaults)
    (req : Interceptors FinalConfig ErrVal RecVal)
    (res : Interceptors HttpResponse ErrVal RecVal)
    (cfg : CallConfig) (outcome : FetchOutcome) (e : ErrVal)
    (hoff : (core strfy defaults req res cfg outcome).offeredErr = some e) :
    (core strfy defaults req res cfg outcome).rejectedRuns = 1
    ∧ (core strfy defaults req res cfg outcome).result
        = recoverResult (res.runRejected e) := by
  cases hq : req.runFulfilled (mergedFinal strfy defaults cfg) with
  | error e1 =>
    simp only [core, hq] at hoff ⊢
    simp only [Option.some.injEq] at hoff
    subst hoff
    constructor <;> trivial
  | ok fin =>
    simp only [core, hq] at hoff ⊢
    cases outcome with
    | success status rhdrs jsonR textR =>
      simp only [afterHooks] at hoff ⊢
      by_cases hst : status < 200 ∨ 300 ≤ status
      · rw [if_pos hst] at hoff ⊢
        simp only [Option.some.injEq] at hoff
        subst hoff
        constructor <;> trivial
      · rw [if_neg hst] at hoff ⊢
        cases hful : res.runFulfilled
            (wrappedResp (resolveFin defaults cfg fin) status rhdrs jsonR textR) with
        | ok processed =>
          rw [hful] at hoff
          simp at hoff
        | error e1 =>
          rw [hful] at hoff
          simp only [Option.some.injEq] at hoff
          subst hoff
          constructor <;> trivial
    | abortError =>
      simp only [afterHooks] at hoff ⊢
      simp only [Option.some.injEq] at hoff
      subst hoff
      constructor <;> trivial
    | failure msg =>
      simp only [afterHooks] at hoff ⊢
      simp only [Option.some.injEq] at hoff
      subst hoff
      constructor <;> trivial

theorem core_rejectedRuns_le_one (strfy : JVal → String) (defaults : Defaults)
    (req : Interceptors FinalConfig ErrVal RecVal)
    (res : Interceptors HttpResponse ErrVal RecVal)
    (cfg : CallConfig) (outcome : FetchOutcome) :
    (core strfy defaults req res cfg outcome).rejectedRuns ≤ 1 := by
  cases hq : req.runFulfilled (mergedFinal strfy defaults cfg) with
  | error e1 => simp [core, hq]
  | ok fin =>
    simp only [core, hq]
    cases outcome with
    | success status rhdrs jsonR textR =>
      simp only [afterHooks]
      by_cases hst : status < 200 ∨ 300 ≤ status
      · rw [if_pos hst]
      · rw [if_neg hst]
        cases hful : res.runFulfilled
            (wrappedResp (resolveFin defaults cfg fin) status rhdrs jsonR textR) with
        | ok processed => dsimp only; omega
        | error e1 => dsimp only; omega
    | abortError => simp [afterHooks]
    | failure msg => simp [afterHooks]

theorem afterHooks_timer (res : Interceptors HttpResponse ErrVal RecVal)
    (defaults : Defaults) (cfg : CallConfig) (dAfter : Defaults)
    (fin : FinalConfig) (outcome : FetchOutcome) :
    (afterHooks res defaults cfg dAfter fin outcome).timerArmed
      = (!fin.signal && timeoutTruthy fin.timeout)
    ∧ (afterHooks res defaults cfg dAfter fin outcome).timerCleared
      = (if (!fin.signal && timeoutTruthy fin.timeout) = true then 1 else 0) := by
  cases outcome with
  | success status rhdrs jsonR textR =>
    simp only [afterHooks]
    by_cases hst : status < 200 ∨ 300 ≤ status
    · rw [if_pos hst]; exact ⟨rfl, rfl⟩
    · rw [if_neg hst]
      cases hful : res.runFulfilled
          (wrappedResp (resolveFin defaults cfg fin) status rhdrs jsonR textR) with
      | ok processed => exact ⟨rfl, rfl⟩
      | error e1 => exact ⟨rfl, rfl⟩
  | abortError => exact ⟨rfl, rfl⟩
  | failure msg => exact ⟨rfl, rfl⟩

/- Concrete values used by the claim witnesses. -/

/-- A JSON encoder instance for witnesses (the encoder is an external
    primitive; the theorems hold for every encoder). -/
def enc0 : JVal → String := fun _ => ""

/-- An empty request interceptor registry. -/
def emptyReq : Interceptors FinalConfig ErrVal RecVal := ⟨[]⟩

/-- An empty response interceptor registry. -/
def emptyRes : Interceptors HttpResponse ErrVal RecVal := ⟨[]⟩

/-- A plain GET call configuration. -/
def cfg404 : CallConfig :=
  { url := some "https://api.example.com/missing", method := none, baseURL := none
    headers := [], data := none, timeout := none, withCredentials := none
    credentials := none, signal := false }

/-- A 404 response with JSON body `{"error":"missing"}`. -/
def out404 : FetchOutcome :=
  .success 404 [("content-type", "application/json")]
    (.ok (.obj [("error", .str "missing")])) (.ok "")

/-- The resolved config of `cfg404` under the initial defaults. -/
def fin404 : FinalConfig :=
  resolveFin initialDefaults cfg404 (mergedFinal enc0 initialDefaults cfg404)

/-- The normalized 404 response. -/
def wrap404 : HttpResponse :=
  wrappedResp fin404 404 [("content-type", "application/json")]
    (.ok (.obj [("error", .str "missing")])) (.ok "")

/-- The structured error the pipeline builds for that 404. -/
def err404 : ErrVal :=
  .http (makeError ("Request failed with status code " ++ toString 404)
    fin404 (some wrap404) (some 404))

/-- A failure hook recovering every error with `{status: 200, data: "fallback"}`. -/
def recHook : ErrVal → Except ErrVal RecVal :=
  fun _ => .ok (.shaped 200 (.str "fallback"))

/-- A response registry holding only that failure hook. -/
def resRec : Interceptors HttpResponse ErrVal RecVal := ⟨[some ⟨none, some recHook⟩]⟩

/-- A call configuration with `timeout: 50` and no external token. -/
def cfg50 : CallConfig :=
  { url := some "https://api.example.com/slow", method := none, baseURL := none
    headers := [], data := none, timeout := some 50, withCredentials := none
    credentials := none, signal := false }

/-- A call configuration carrying a plain-object body `{a: 1}`. -/
def cfg4 : CallConfig :=
  { url := some "https://api.example.com/x", method := none, baseURL := none
    headers := [], data := some (.jval (.obj [("a", .num 1)])), timeout := none
    withCredentials := none, credentials := none, signal := false }

/-- Claim C1: for every request whose transport call returns a status outside
    [200,300) (request hooks having succeeded) and whose response registry has
    no failure hooks to recover, the pipeline offers and raises a
    StructuredError with message "Request failed with status code {status}",
    status field equal to the numeric status, and response field equal to the
    normalized response with its decoded body. -/
theorem C1_non2xx_raises_structured_error (strfy : JVal → String)
    (defaults : Defaults)
    (req : Interceptors FinalConfig ErrVal RecVal)
    (res : Interceptors HttpResponse ErrVal RecVal)
    (cfg : CallConfig) (status : Nat) (rhdrs : List (String × String))
    (jsonR : Except Unit JVal) (textR : Except Unit String) (fin : FinalConfig)
    (hst : status < 200 ∨ 300 ≤ status)
    (hreq : req.runFulfilled (mergedFinal strfy defaults cfg) = .ok fin)
    (hnr : noRejectedHandlers res = true) :
    (core strfy defaults req res cfg (.success status rhdrs jsonR textR)).offeredErr
      = some (.http (makeError ("Request failed with status code " ++ toString status)
          (resolveFin defaults cfg fin)
          (some (wrappedResp (resolveFin defaults cfg fin) status rhdrs jsonR textR))
          (some status)))
    ∧ (core strfy defaults req res cfg (.success status rhdrs jsonR textR)).result
      = .error (.http (makeError ("Request failed with status code " ++ toString status)
          (resolveFin defaults cfg fin)
          (some (wrappedResp (resolveFin defaults cfg fin) status rhdrs jsonR textR))
          (some status))) := by
  rw [core_ok strfy defaults req res cfg _ fin hreq]
  simp only [afterHooks]
  rw [if_pos hst]
  refine ⟨rfl, ?_⟩
  rw [noRej_runRejected res hnr]
  rfl

/-- Witness for C1: a 404 with JSON body `{"error":"missing"}` and no
    registered hooks raises the structured 404 error, whose response carries
    the decoded body. -/
theorem C1_non2xx_raises_structured_error_witness :
    (core enc0 initialDefaults emptyReq emptyRes cfg404 out404).result = .error err404
    ∧ wrap404.data = JVal.obj [("error", JVal.str "missing")] :=
  ⟨(C1_non2xx_raises_structured_error enc0 initialDefaults emptyReq emptyRes cfg404
      404 [("content-type", "application/json")]
      (.ok (.obj [("error", .str "missing")])) (.ok "")
      (mergedFinal enc0 initialDefaults cfg404)
      (Or.inr (by decide)) rfl rfl).2, rfl⟩

/-- Claim C2: for every request whose transport call fails with a cancellation
    indication (AbortError — whether from the internal timeout timer or an
    external token), with the merged timeout equal to t and no failure hooks
    to recover, the pipeline raises a StructuredError with status 0 and
    message "timeout of {t}ms exceeded". -/
theorem C2_cancellation_is_timeout_error (strfy : JVal → String)
    (defaults : Defaults)
    (req : Interceptors FinalConfig ErrVal RecVal)
    (res : Interceptors HttpResponse ErrVal RecVal)
    (cfg : CallConfig) (fin : FinalConfig) (t : Nat)
    (hreq : req.runFulfilled (mergedFinal strfy defaults cfg) = .ok fin)
    (ht : fin.timeout = some t)
    (hnr : noRejectedHandlers res = true) :
    (core strfy defaults req res cfg .abortError).result
      = .error (.http (makeError ("timeout of " ++ toString t ++ "ms exceeded")
          (resolveFin defaults cfg fin) none (some 0))) := by
  rw [core_ok strfy defaults req res cfg _ fin hreq]
  simp only [afterHooks, normalizeCatch]
  rw [show (resolveFin defaults cfg fin).timeout = fin.timeout from rfl, ht]
  rw [noRej_runRejected res hnr]
  rfl

/-- Witness for C2: timeout 50 against a transport that aborts yields status 0
    and the message "timeout of 50ms exceeded". -/
theorem C2_cancellation_is_timeout_error_witness :
    (core enc0 initialDefaults emptyReq emptyRes cfg50 .abortError).result
      = .error (.http (makeError ("timeout of " ++ toString 50 ++ "ms exceeded")
          (resolveFin initialDefaults cfg50 (mergedFinal enc0 initialDefaults cfg50))
          none (some 0))) :=
  C2_cancellation_is_timeout_error enc0 initialDefaults emptyReq emptyRes cfg50
    (mergedFinal enc0 initialDefaults cfg50) 50 rfl rfl rfl

/-- Claim C3: every pipeline failure is offered to the response failure chain
    exactly once, and the call's result is exactly the chain's verdict: a
    recovery with a response-shaped value resolves to its data field, a
    recovery with a plain value resolves to that value, and an unrecovered
    error is rethrown; within the chain, the first callback that returns ends
    the failure, a callback that rethrows feeds its output to the remaining
    callbacks, and an empty chain rethrows. -/
theorem C3_failure_offered_once_and_recovery (strfy : JVal → String)
    (defaults : Defaults)
    (req : Interceptors FinalConfig ErrVal RecVal)
    (res : Interceptors HttpResponse ErrVal RecVal)
    (cfg : CallConfig) (outcome : FetchOutcome) (e : ErrVal)
    (hoff : (core strfy defaults req res cfg outcome).offeredErr = some e) :
    (core strfy defaults req res cfg outcome).rejectedRuns = 1
    ∧ (core strfy defaults req res cfg outcome).result
        = recoverResult (res.runRejected e)
    ∧ (∀ o2 : FetchOutcome, (core strfy defaults req res cfg o2).rejectedRuns ≤ 1)
    ∧ (∀ (g : Option (HttpResponse → Except ErrVal HttpResponse))
        (f : ErrVal → Except ErrVal RecVal)
        (rest : List (Option (Handler HttpResponse ErrVal RecVal)))
        (e0 : ErrVal) (v : RecVal),
        f e0 = .ok v → runRejectedList (some ⟨g, some f⟩ :: rest) e0 = .ok v)
    ∧ (∀ (g : Option (HttpResponse → Except ErrVal HttpResponse))
        (f : ErrVal → Except ErrVal RecVal)
        (rest : List (Option (Handler HttpResponse ErrVal RecVal)))
        (e0 e2 : ErrVal),
        f e0 = .error e2 →
        runRejectedList (some ⟨g, some f⟩ :: rest) e0 = runRejectedList rest e2)
    ∧ (∀ (g : Option (HttpResponse → Except ErrVal HttpResponse))
        (rest : List (Option (Handler HttpResponse ErrVal RecVal))) (e0 : ErrVal),
        runRejectedList (some ⟨g, none⟩ :: rest) e0 = runRejectedList rest e0)
    ∧ (∀ (rest : List (Option (Handler HttpResponse ErrVal RecVal))) (e0 : ErrVal),
        runRejectedList (none :: rest) e0 = runRejectedList rest e0)
    ∧ (∀ e0 : ErrVal,
        runRejectedList ([] : List (Option (Handler HttpResponse ErrVal RecVal))) e0
          = .error e0)
    ∧ (∀ (st : Nat) (d : JVal), recoverResult (.ok (.shaped st d)) = .ok d)
    ∧ (∀ v : JVal, recoverResult (.ok (.plain v)) = .ok v)
    ∧ (∀ h : ErrVal, recoverResult (.error h) = .error h) := by
  obtain ⟨h1, h2⟩ := core_offered_spec strfy defaults req res cfg outcome e hoff
  refine ⟨h1, h2, core_rejectedRuns_le_one strfy defaults req res cfg,
    ?_, ?_, ?_, ?_, ?_, ?_, ?_, ?_⟩
  · intro g f rest e0 v hf; simp [runRejectedList, hf]
  · intro g f rest e0 e2 hf; simp [runRejectedList, hf]
  · intro g rest e0; rfl
  · intro rest e0; rfl
  · intro e0; rfl
  · intro st d; rfl
  · intro v; rfl
  · intro h; rfl

/-- Witness for C3: with a failure hook returning `{status: 200, data:
    "fallback"}`, the 404 failure resolves to the chain's verdict, namely
    "fallback". -/
theorem C3_failure_offered_once_and_recovery_witness :
    (core enc0 initialDefaults emptyReq resRec cfg404 out404).result
      = recoverResult (resRec.runRejected err404)
    ∧ (core enc0 initialDefaults emptyReq resRec cfg404 out404).result
      = .ok (.str "fallback") :=
  ⟨(C3_failure_offered_once_and_recovery enc0 initialDefaults emptyReq resRec
      cfg404 out404 err404 rfl).2.1, rfl⟩

/-- Claim C4: a structured (plain, non-binary) object body with no
    Content-Type in the merged headers gets `Content-Type: application/json`
    and is JSON-encoded in the resolved config; binary/form bodies and string
    bodies pass through the merger with body and headers unmodified. -/
theorem C4_auto_json_body (strfy : JVal → String) :
    (∀ (defaults : Defaults) (cfg : CallConfig) (j : JVal),
      cfg.data = some (.jval j) → isPlainJVal j = true →
      hhas (mergeHeaders defaults.headers cfg.headers) "Content-Type" = false →
      hget (mergedFinal strfy defaults cfg).headers "Content-Type"
        = some "application/json"
      ∧ (mergedFinal strfy defaults cfg).data = some (.jval (.str (strfy j))))
    ∧ (∀ (defaults : Defaults) (cfg : CallConfig) (b : BodyVal),
      cfg.data = some b → isBinaryBody b = true →
      (mergedFinal strfy defaults cfg).headers = mergeHeaders defaults.headers cfg.headers
      ∧ (mergedFinal strfy defaults cfg).data = some b)
    ∧ (∀ (defaults : Defaults) (cfg : CallConfig) (s : String),
      cfg.data = some (.jval (.str s)) →
      (mergedFinal strfy defaults cfg).headers = mergeHeaders defaults.headers cfg.headers
      ∧ (mergedFinal strfy defaults cfg).data = some (.jval (.str s))) := by
  refine ⟨?_, ?_, ?_⟩
  · intro defaults cfg j hd hp hno
    have hplain : isPlainObjData (some (BodyVal.jval j)) = true := by
      simpa [isPlainObjData] using hp
    have hCT : hget (hset (mergeHeaders defaults.headers cfg.headers) "Content-Type"
        "application/json") "Content-Type" = some "application/json" :=
      hget_hset_of_not_has _ _ _ hno
    have hinc : strIncludes "application/json" "application/json" = true := by decide
    constructor
    · show hget (autoJson strfy (mergeHeaders defaults.headers cfg.headers) cfg.data).fst
        "Content-Type" = _
      rw [hd]
      simp only [autoJson, hplain, hno, Bool.not_false, Bool.and_self, if_true]
      exact hCT
    · show (autoJson strfy (mergeHeaders defaults.headers cfg.headers) cfg.data).snd = _
      rw [hd]
      simp only [autoJson, hplain, hno, Bool.not_false, Bool.and_self, if_true, hCT]
      simp [hinc]
  · intro defaults cfg b hd hb
    have hplain : isPlainObjData (some b) = false := by
      cases b <;> simp_all [isPlainObjData, isBinaryBody]
    constructor
    · show (autoJson strfy (mergeHeaders defaults.headers cfg.headers) cfg.data).fst = _
      rw [hd]; simp [autoJson, hplain]
    · show (autoJson strfy (mergeHeaders defaults.headers cfg.headers) cfg.data).snd = _
      rw [hd]; simp [autoJson, hplain]
  · intro defaults cfg s hd
    have hplain : isPlainObjData (some (BodyVal.jval (JVal.str s))) = false := by
      simp [isPlainObjData, isPlainJVal]
    constructor
    · show (autoJson strfy (mergeHeaders defaults.headers cfg.headers) cfg.data).fst = _
      rw [hd]; simp [autoJson, hplain]
    · show (autoJson strfy (mergeHeaders defaults.headers cfg.headers) cfg.data).snd = _
      rw [hd]; simp [autoJson, hplain]

/-- Witness for C4: the body `{a: 1}` with no Content-Type header resolves to
    `Content-Type: application/json` and the JSON-encoded text. -/
theorem C4_auto_json_body_witness :
    hget (mergedFinal enc0 initialDefaults cfg4).headers "Content-Type"
      = some "application/json"
    ∧ (mergedFinal enc0 initialDefaults cfg4).data
      = some (.jval (.str (enc0 (.obj [("a", .num 1)])))) :=
  (C4_auto_json_body enc0).1 initialDefaults cfg4 (.obj [("a", .num 1)])
    rfl rfl (by decide)

/-- Claim C5: a 204/205 response never invokes body decoding (for all decoder
    results, the pipeline's decode-invocation flag is false) and the decoded
    body of the normalized response is null. -/
theorem C5_bodiless_status_skips_decoding (strfy : JVal → String)
    (defaults : Defaults)
    (req : Interceptors FinalConfig ErrVal RecVal)
    (res : Interceptors HttpResponse ErrVal RecVal)
    (cfg : CallConfig) (status : Nat) (rhdrs : List (String × String))
    (jsonR : Except Unit JVal) (textR : Except Unit String) (fin : FinalConfig)
    (hst : status = 204 ∨ status = 205)
    (hreq : req.runFulfilled (mergedFinal strfy defaults cfg) = .ok fin) :
    (core strfy defaults req res cfg (.success status rhdrs jsonR textR)).decodeInvoked
      = false
    ∧ (core strfy defaults req res cfg (.success status rhdrs jsonR textR)).normResp
      = some (wrappedResp (resolveFin defaults cfg fin) status rhdrs jsonR textR)
    ∧ (wrappedResp (resolveFin defaults cfg fin) status rhdrs jsonR textR).data
      = JVal.null := by
  rw [core_ok strfy defaults req res cfg _ fin hreq]
  have hnot : ¬(status < 200 ∨ 300 ≤ status) := by
    rcases hst with h | h <;> subst h <;> decide
  have hdb : decodeBody status ((hget rhdrs "content-type").getD "") jsonR textR
      = (JVal.null, false) := by
    rcases hst with h | h <;> subst h <;> simp [decodeBody]
  simp only [afterHooks]
  rw [if_neg hnot]
  cases hful : res.runFulfilled
      (wrappedResp (resolveFin defaults cfg fin) status rhdrs jsonR textR) with
  | ok processed =>
    refine ⟨?_, rfl, ?_⟩
    · show (decodeBody status ((hget rhdrs "content-type").getD "") jsonR textR).snd = false
      rw [hdb]
    · show (decodeBody status ((hget rhdrs "content-type").getD "") jsonR textR).fst = JVal.null
      rw [hdb]
  | error e1 =>
    refine ⟨?_, rfl, ?_⟩
    · show (decodeBody status ((hget rhdrs "content-type").getD "") jsonR textR).snd = false
      rw [hdb]
    · show (decodeBody status ((hget rhdrs "content-type").getD "") jsonR textR).fst = JVal.null
      rw [hdb]

/-- Witness for C5: a 204 response with failing decoders is never decoded and
    its body is null. -/
theorem C5_bodiless_status_skips_decoding_witness :
    (core enc0 initialDefaults emptyReq emptyRes cfg404
        (.success 204 [("content-type", "application/json")] (.error ()) (.error ()))).decodeInvoked
      = false
    ∧ (core enc0 initialDefaults emptyReq emptyRes cfg404
        (.success 204 [("content-type", "application/json")] (.error ()) (.error ()))).normResp
      = some (wrappedResp (resolveFin initialDefaults cfg404 (mergedFinal enc0 initialDefaults cfg404))
          204 [("content-type", "application/json")] (.error ()) (.error ()))
    ∧ (wrappedResp (resolveFin initialDefaults cfg404 (mergedFinal enc0 initialDefaults cfg404))
        204 [("content-type", "application/json")] (.error ()) (.error ())).data
      = JVal.null :=
  C5_bodiless_status_skips_decoding enc0 initialDefaults emptyReq emptyRes cfg404
    204 [("content-type", "application/json")] (.error ()) (.error ())
    (mergedFinal enc0 initialDefaults cfg404) (Or.inl rfl) rfl

/-- Claim C6: when body decoding fails on a 2xx (non-204/205) response, the
    decoded body degrades to null for JSON-declared content and to "" for text
    content, the decode exception is never propagated, and the call still
    proceeds down the success path. -/
theorem C6_decode_failure_degrades (strfy : JVal → String) (defaults : Defaults)
    (req : Interceptors FinalConfig ErrVal RecVal)
    (res : Interceptors HttpResponse ErrVal RecVal)
    (cfg : CallConfig) (status : Nat) (rhdrs : List (String × String))
    (jsonR : Except Unit JVal) (textR : Except Unit String)
    (fin : FinalConfig) (processed : HttpResponse)
    (h2xx : 200 ≤ status ∧ status < 300) (h204 : status ≠ 204) (h205 : status ≠ 205)
    (hreq : req.runFulfilled (mergedFinal strfy defaults cfg) = .ok fin)
    (hful : res.runFulfilled
        (wrappedResp (resolveFin defaults cfg fin) status rhdrs jsonR textR)
      = .ok processed) :
    (strIncludes ((hget rhdrs "content-type").getD "") "application/json" = true →
      jsonR = .error () →
      (wrappedResp (resolveFin defaults cfg fin) status rhdrs jsonR textR).data = JVal.null)
    ∧ (strIncludes ((hget rhdrs "content-type").getD "") "application/json" = false →
      textR = .error () →
      (wrappedResp (resolveFin defaults cfg fin) status rhdrs jsonR textR).data = JVal.str "")
    ∧ (core strfy defaults req res cfg (.success status rhdrs jsonR textR)).result
      = .ok processed.data := by
  have hnb : ¬(status = 204 ∨ status = 205) := by
    rintro (h | h) <;> simp_all
  refine ⟨?_, ?_, ?_⟩
  · intro hct hj
    subst hj
    simp [wrappedResp, decodeBody, hnb, hct]
  · intro hct ht
    subst ht
    simp [wrappedResp, decodeBody, hnb, hct]
  · rw [core_ok strfy defaults req res cfg _ fin hreq]
    have hnot : ¬(status < 200 ∨ 300 ≤ status) := by omega
    simp only [afterHooks]
    rw [if_neg hnot, hful]

/-- Witness for C6: a 200 JSON response whose JSON decoder fails yields body
    null and still resolves successfully. -/
theorem C6_decode_failure_degrades_witness :
    (wrappedResp (resolveFin initialDefaults cfg404 (mergedFinal enc0 initialDefaults cfg404))
        200 [("content-type", "application/json")] (.error ()) (.ok "")).data = JVal.null
    ∧ (core enc0 initialDefaults emptyReq emptyRes cfg404
        (.success 200 [("content-type", "application/json")] (.error ()) (.ok ""))).result
      = .ok (wrappedResp (resolveFin initialDefaults cfg404 (mergedFinal enc0 initialDefaults cfg404))
          200 [("content-type", "application/json")] (.error ()) (.ok "")).data :=
  ⟨(C6_decode_failure_degrades enc0 initialDefaults emptyReq emptyRes cfg404
      200 [("content-type", "application/json")] (.error ()) (.ok "")
      (mergedFinal enc0 initialDefaults cfg404) _
      ⟨by decide, by decide⟩ (by decide) (by decide) rfl rfl).1 (by decide) rfl,
   (C6_decode_failure_degrades enc0 initialDefaults emptyReq emptyRes cfg404
      200 [("content-type", "application/json")] (.error ()) (.ok "")
      (mergedFinal enc0 initialDefaults cfg404) _
      ⟨by decide, by decide⟩ (by decide) (by decide) rfl rfl).2.2⟩

/-- Claim C7: registering three success hooks issues the consecutive handles
    0, 1, 2; running the success chain feeds each callback's output to the
    next in registration order; ejecting the middle handle marks its slot
    inert without compacting the registry (the other slots keep their indices
    and callbacks), after which the chain runs the remaining callbacks in
    their original order, skipping the ejected one. -/
theorem C7_hook_order_and_ejection {α ε ρ : Type} (f0 f1 f2 : α → Except ε α)
    (v : α) :
    Interceptors.use (⟨[]⟩ : Interceptors α ε ρ) (some f0) none
      = (⟨[some ⟨some f0, none⟩]⟩, 0)
    ∧ Interceptors.use (⟨[some ⟨some f0, none⟩]⟩ : Interceptors α ε ρ) (some f1) none
      = (⟨[some ⟨some f0, none⟩, some ⟨some f1, none⟩]⟩, 1)
    ∧ Interceptors.use
        (⟨[some ⟨some f0, none⟩, some ⟨some f1, none⟩]⟩ : Interceptors α ε ρ)
        (some f2) none
      = (⟨[some ⟨some f0, none⟩, some ⟨some f1, none⟩, some ⟨some f2, none⟩]⟩, 2)
    ∧ Interceptors.eject
        (⟨[some ⟨some f0, none⟩, some ⟨some f1, none⟩, some ⟨some f2, none⟩]⟩ :
          Interceptors α ε ρ) 1
      = ⟨[some ⟨some f0, none⟩, none, some ⟨some f2, none⟩]⟩
    ∧ Interceptors.runFulfilled
        (⟨[some ⟨some f0, none⟩, some ⟨some f1, none⟩, some ⟨some f2, none⟩]⟩ :
          Interceptors α ε ρ) v
      = (f0 v).bind (fun v1 => (f1 v1).bind f2)
    ∧ Interceptors.runFulfilled
        (⟨[some ⟨some f0, none⟩, none, some ⟨some f2, none⟩]⟩ : Interceptors α ε ρ) v
      = (f0 v).bind f2 := by
  refine ⟨rfl, rfl, rfl, rfl, ?_, ?_⟩
  · show runFulfilledList _ v = _
    cases h0 : f0 v with
    | error e => simp [runFulfilledList, h0, Except.bind]
    | ok v1 =>
      cases h1 : f1 v1 with
      | error e => simp [runFulfilledList, h0, h1, Except.bind]
      | ok v2 =>
        cases h2 : f2 v2 with
        | error e => simp [runFulfilledList, h0, h1, h2, Except.bind]
        | ok v3 => simp [runFulfilledList, h0, h1, h2, Except.bind]
  · show runFulfilledList _ v = _
    cases h0 : f0 v with
    | error e => simp [runFulfilledList, h0, Except.bind]
    | ok v1 =>
      cases h2 : f2 v1 with
      | error e => simp [runFulfilledList, h0, h2, Except.bind]
      | ok v3 => simp [runFulfilledList, h0, h2, Except.bind]

/-- The defaults after the facade call `setHeader("X-App", "my-app")` on a
    fresh client: the headers are now a Headers instance. -/
def d8 : Defaults := setHeader initialDefaults "X-App" "my-app"

/-- A call supplying the per-call header `X-Per-Call: 1`. -/
def cfg8 : CallConfig :=
  { url := some "https://api.example.com/x", method := none, baseURL := none
    headers := [("X-Per-Call", "1")], data := none, timeout := none
    withCredentials := none, credentials := none, signal := false }

/-- Claim C8 (refuted — the claim says performing a request never mutates the
    defaults): once `setHeader` has stored a Headers instance in the defaults,
    `toHeaders(defaults.headers)` aliases that instance, so the per-call
    header merge of a subsequent request writes the per-call headers into the
    defaults.  Evaluated at the failing input: defaults holding only
    `x-app: my-app` gain the per-call header `x-per-call: 1` after one
    request. -/
theorem C8_request_mutates_defaults :
    d8.headers = some (.headersObj [("x-app", "my-app")])
    ∧ (core enc0 d8 ⟨[]⟩ ⟨[]⟩ cfg8 (.success 200 [] (.ok .null) (.ok ""))).defaultsAfter
      ≠ d8
    ∧ (core enc0 d8 ⟨[]⟩ ⟨[]⟩ cfg8
        (.success 200 [] (.ok .null) (.ok ""))).defaultsAfter.headers
      = some (.headersObj [("x-app", "my-app"), ("x-per-call", "1")]) :=
  ⟨by decide, by decide, by decide⟩

/-- Claim C9: the internal timeout timer is cleared exactly once whenever it
    was armed (and never otherwise), on every exit path — success, non-2xx,
    transport failure, timeout — and it is armed exactly when the request
    hooks succeeded, no external token is present on the resolved config, and
    a (nonzero) timeout is configured; in particular an early request-hook
    failure arms no timer. -/
theorem C9_timer_cleared_once (strfy : JVal → String) (defaults : Defaults)
    (req : Interceptors FinalConfig ErrVal RecVal)
    (res : Interceptors HttpResponse ErrVal RecVal)
    (cfg : CallConfig) (outcome : FetchOutcome) :
    (core strfy defaults req res cfg outcome).timerCleared
      = (if (core strfy defaults req res cfg outcome).timerArmed = true then 1 else 0)
    ∧ ((core strfy defaults req res cfg outcome).timerArmed = true ↔
        ∃ fin, req.runFulfilled (mergedFinal strfy defaults cfg) = .ok fin
          ∧ fin.signal = false ∧ timeoutTruthy fin.timeout = true) := by
  cases hq : req.runFulfilled (mergedFinal strfy defaults cfg) with
  | error e1 =>
    simp only [core, hq]
    constructor
    · simp
    · constructor
      · intro h; exact absurd h (by simp)
      · rintro ⟨fin, hfin, _, _⟩; exact absurd hfin (by simp)
  | ok fin =>
    simp only [core, hq]
    obtain ⟨ha, hc⟩ := afterHooks_timer res defaults cfg
      (mergedDefaultsAfter strfy defaults cfg) fin outcome
    rw [ha, hc]
    refine ⟨rfl, ?_⟩
    constructor
    · intro h
      simp only [Bool.and_eq_true, Bool.not_eq_true'] at h
      exact ⟨fin, rfl, h.1, h.2⟩
    · rintro ⟨fin2, hfin2, hs, ht⟩
      injection hfin2 with h2
      subst h2
      simp [hs, ht]

/-- Witness for C9: with timeout 50, no external token, and empty hook chains,
    a timed-out call armed the timer and cleared it exactly once. -/
theorem C9_timer_cleared_once_witness :
    (core enc0 initialDefaults emptyReq emptyRes cfg50 .abortError).timerCleared
      = (if (core enc0 initialDefaults emptyReq emptyRes cfg50 .abortError).timerArmed = true
          then 1 else 0)
    ∧ (core enc0 initialDefaults emptyReq emptyRes cfg50 .abortError).timerArmed = true :=
  ⟨(C9_timer_cleared_once enc0 initialDefaults emptyReq emptyRes cfg50 .abortError).1,
   (C9_timer_cleared_once enc0 initialDefaults emptyReq emptyRes cfg50 .abortError).2.mpr
     ⟨mergedFinal enc0 initialDefaults cfg50, rfl, rfl, rfl⟩⟩

/-- Claim C10: eject is idempotent (a second eject of the same id leaves the
    registry in the same state, hence the same run behavior), and ejecting an
    id that was never issued (ids issued by use are exactly the indices below
    the registry length) leaves the registry — and therefore the results of
    running the success and failure chains on every input — unchanged. -/
theorem C10_eject_idempotent_and_unissued_noop {α ε ρ : Type}
    (s : Interceptors α ε ρ) (id : Nat) :
    (s.eject id).eject id = s.eject id
    ∧ (s.handlers.length ≤ id → s.eject id = s)
    ∧ (s.handlers.length ≤ id →
        (∀ v, (s.eject id).runFulfilled v = s.runFulfilled v)
        ∧ (∀ e, (s.eject id).runRejected e = s.runRejected e)) := by
  have hout : s.handlers.length ≤ id → s.eject id = s := by
    intro hle
    unfold Interceptors.eject
    rw [List.getElem?_eq_none hle]
  refine ⟨?_, hout, ?_⟩
  · cases hsd : s.handlers[id]? with
    | none =>
      have h1 : s.eject id = s := by unfold Interceptors.eject; rw [hsd]
      rw [h1, h1]
    | some o =>
      cases o with
      | none =>
        have h1 : s.eject id = s := by unfold Interceptors.eject; rw [hsd]
        rw [h1, h1]
      | some h =>
        have hlt : id < s.handlers.length := by
          by_contra hge
          rw [List.getElem?_eq_none (by omega)] at hsd
          exact absurd hsd (by simp)
        have h1 : s.eject id = ⟨s.handlers.set id none⟩ := by
          unfold Interceptors.eject; rw [hsd]
        rw [h1]
        unfold Interceptors.eject
        rw [show (⟨s.handlers.set id none⟩ : Interceptors α ε ρ).handlers
            = s.handlers.set id none from rfl]
        rw [List.getElem?_set_eq_of_lt _ (by simpa using hlt)]
  · intro hle
    rw [hout hle]
    exact ⟨fun v => rfl, fun e => rfl⟩

/-- A one-slot success chain over Nat used by the C10 witness. -/
def s10 : Interceptors Nat Nat Nat := ⟨[some ⟨some (fun n => .ok (n + 1)), none⟩]⟩

/-- Witness for C10: ejecting the never-issued id 5 twice is the same as once,
    and leaves the one-slot registry unchanged. -/
theorem C10_eject_idempotent_and_unissued_noop_witness :
    ((s10.eject 5).eject 5 = s10.eject 5) ∧ (s10.eject 5 = s10) :=
  ⟨(C10_eject_idempotent_and_unissued_noop s10 5).1,
   (C10_eject_idempotent_and_unissued_noop s10 5).2.1 (by decide)⟩
